import Mathlib

/-!
Shallow embedding of the resource-fetching layer in src/util/ajax.js:
request construction (makeRequest), the mock registry and its
MockXMLHttpRequest transport, the completion handlers of getJSON and
getArrayBuffer, the getImage continuation, and getVideo.

JavaScript values that matter to the control flow are modelled
explicitly: truthiness of response bodies, `null` responses as
`Option`, `undefined` property accesses (the mock object has no
getResponseHeader method, a buffer has byteLength while a string
does not), and host-environment services (URL parsing, JSON.parse,
object-URL creation) as function parameters.
-/

namespace Ajax

/-- A response body as the JS code sees it: a string or an ArrayBuffer
of bytes. -/
inductive JSBody where
  | str (s : String)
  | buf (bytes : List Nat)
deriving DecidableEq, Repr

/-- JS truthiness of a body value: the empty string is falsy, every
ArrayBuffer object (even a zero-length one) is truthy. -/
def truthy : JSBody → Bool
  | JSBody.str s => s != ""
  | JSBody.buf _ => true

/-- The `byteLength` property access: `some n` on an ArrayBuffer,
`none` (undefined) on a string. -/
def byteLength : JSBody → Option Nat
  | JSBody.str _ => none
  | JSBody.buf bs => some bs.length

/-- The fields of a parsed `window.URL` object that the code reads,
plus the components the lookup is supposed to ignore. -/
structure URL where
  protocol : String
  hostname : String
  port : String
  pathname : String
  search : String
  hash : String
deriving DecidableEq, Repr

/-- One host entry of the mock registry: path to canned body. -/
abbrev HostMock := List (String × JSBody)

/-- The mock registry: hostname to host entry. -/
abbrev MockRegistry := List (String × HostMock)

/-- Property read on a JS object used as a map: `some` when the key is
present, `none` (undefined) otherwise. -/
def lookupAssoc {α : Type} (l : List (String × α)) (k : String) : Option α :=
  (l.find? (fun kv => kv.1 == k)).map (fun kv => kv.2)

/-- The mock decision of makeRequest: `mockRequest[hostName]` followed
by the truthiness test `hostMock && hostMock[pathName]`. It yields the
canned body only when the host entry exists, the path key exists and
its body is truthy. -/
def mockLookup (reg : MockRegistry) (u : URL) : Option JSBody :=
  match lookupAssoc reg u.hostname with
  | none => none
  | some hostMock =>
    match lookupAssoc hostMock u.pathname with
    | none => none
    | some body => if truthy body then some body else none

/-- RequestParameters as defined in the source. -/
structure RequestParameters where
  url : String
  headers : Option (List (String × String))
  credentials : Option String
deriving DecidableEq, Repr

/-- Which transport object makeRequest constructed. -/
inductive XhrKind where
  | real
  | mock (url : String) (response : JSBody)
deriving DecidableEq, Repr

/-- The request-side state of an XHR object. On a MockXMLHttpRequest
the `open` and `setRequestHeader` methods are empty, so only a real
request records the method, the url and the headers. -/
structure Xhr where
  kind : XhrKind
  reqMethod : String
  url : String
  headers : List (String × String)
  withCredentials : Bool
deriving DecidableEq, Repr

/-- `xhr.open(m, u, true)`: records method and url on a real request,
does nothing on a mock. -/
def openReq (x : Xhr) (m u : String) : Xhr :=
  match x.kind with
  | XhrKind.real => { x with reqMethod := m, url := u }
  | XhrKind.mock _ _ => x

/-- `xhr.setRequestHeader(k, v)`: appends a header on a real request,
does nothing on a mock. -/
def setRequestHeader (x : Xhr) (k v : String) : Xhr :=
  match x.kind with
  | XhrKind.real => { x with headers := x.headers ++ [(k, v)] }
  | XhrKind.mock _ _ => x

/-- `xhr.withCredentials = b`: both the real object and the mock store
the flag. -/
def setWithCredentials (x : Xhr) (b : Bool) : Xhr :=
  { x with withCredentials := b }

/-- makeRequest: parse the url, consult the mock registry, construct
either a MockXMLHttpRequest or a real XMLHttpRequest, open a GET,
attach the supplied headers, translate the credentials mode. URL
parsing is the host browser service, passed as `parseURL`. -/
def makeRequest (parseURL : String → URL) (reg : MockRegistry)
    (p : RequestParameters) : Xhr :=
  let u := parseURL p.url
  let xhr0 : Xhr :=
    match mockLookup reg u with
    | some body =>
      { kind := XhrKind.mock p.url body, reqMethod := "", url := "",
        headers := [], withCredentials := false }
    | none =>
      { kind := XhrKind.real, reqMethod := "", url := "",
        headers := [], withCredentials := false }
  let xhr1 := openReq xhr0 "GET" p.url
  let xhr2 := (p.headers.getD []).foldl
    (fun x kv => setRequestHeader x kv.1 kv.2) xhr1
  setWithCredentials xhr2 (p.credentials == some "include")

/-- setMockRequest replaces the module-level `mockRequest` table with
its argument; the previous table is the second parameter, modelling
the global state being overwritten. -/
def setMockRequest (mock : MockRegistry) (_current : MockRegistry) : MockRegistry :=
  mock

/-- The xhr state that a completion handler reads: status, statusText
(undefined until assigned on the mock), the response (none models a
null response), whether the object provides getResponseHeader (the
MockXMLHttpRequest class does not define it), and the two header
values read on success. -/
structure TransportResult where
  status : Nat
  statusText : Option String
  response : Option JSBody
  hasGetResponseHeader : Bool
  cacheControlHeader : Option String
  expiresHeader : Option String
deriving DecidableEq, Repr

/-- MockXMLHttpRequest.send: truthy stored response gives status 200;
otherwise status 404 with the descriptive statusText. The response
getter returns the stored value in both branches, and the mock never
provides getResponseHeader. -/
def mockSend (url : String) (response : JSBody) : TransportResult :=
  if truthy response then
    { status := 200, statusText := none, response := some response,
      hasGetResponseHeader := false, cacheControlHeader := none,
      expiresHeader := none }
  else
    { status := 404, statusText := some (url ++ " mock data is error!"),
      response := some response,
      hasGetResponseHeader := false, cacheControlHeader := none,
      expiresHeader := none }

/-- The errors the layer can hand to a callback: a plain `new Error`
(network failure or the empty-200-body case), an AJAXError carrying
status and url, or the exception thrown by JSON.parse and caught. -/
inductive JSErr where
  | plainError (message : Option String)
  | ajaxError (message : Option String) (status : Nat) (url : String)
  | parseError (message : String)
deriving DecidableEq, Repr

/-- What one run of a completion handler does: invoke the callback
exactly once with an error, invoke it exactly once with a value, or
throw an exception that escapes the handler. -/
inductive Outcome (α : Type) where
  | callbackErr (e : JSErr)
  | callbackOk (v : α)
  | thrown (message : String)
deriving DecidableEq, Repr

/-- The onload handler of getJSON. JSON.parse is the host service,
passed as `parse`; the thrown SyntaxError is its `Except.error`. -/
def getJSONOnload {α : Type} (parse : JSBody → Except String α)
    (url : String) (t : TransportResult) : Outcome α :=
  if 200 ≤ t.status ∧ t.status < 300 then
    match t.response with
    | some b =>
      if truthy b then
        match parse b with
        | Except.ok v => Outcome.callbackOk v
        | Except.error e => Outcome.callbackErr (JSErr.parseError e)
      else Outcome.callbackErr (JSErr.ajaxError t.statusText t.status url)
    | none => Outcome.callbackErr (JSErr.ajaxError t.statusText t.status url)
  else Outcome.callbackErr (JSErr.ajaxError t.statusText t.status url)

/-- The success payload of getArrayBuffer. -/
structure ABSuccess where
  data : JSBody
  cacheControl : Option String
  expires : Option String
deriving DecidableEq, Repr

/-- The onload handler of getArrayBuffer. Reading `.byteLength` on a
null response throws a TypeError; calling `getResponseHeader` on an
object that does not define it throws a TypeError. -/
def getArrayBufferOnload (url : String) (t : TransportResult) : Outcome ABSuccess :=
  match t.response with
  | none => Outcome.thrown "TypeError: null response has no byteLength"
  | some b =>
    if byteLength b = some 0 ∧ t.status = 200 then
      Outcome.callbackErr
        (JSErr.plainError (some "http status 200 returned without content."))
    else if (200 ≤ t.status ∧ t.status < 300) ∧ truthy b then
      if t.hasGetResponseHeader then
        Outcome.callbackOk
          { data := b, cacheControl := t.cacheControlHeader,
            expires := t.expiresHeader }
      else Outcome.thrown "TypeError: xhr.getResponseHeader is not a function"
    else Outcome.callbackErr (JSErr.ajaxError t.statusText t.status url)

/-- `xhr.send()` for getArrayBuffer: on a mock, send completes
synchronously and runs the onload handler on the synthesized
result; on a real request the exchange leaves the model (`none`). -/
def getArrayBufferSend (p : RequestParameters) (x : Xhr) :
    Option (Outcome ABSuccess) :=
  match x.kind with
  | XhrKind.mock url response =>
    some (getArrayBufferOnload p.url (mockSend url response))
  | XhrKind.real => none

/-- `xhr.send()` for getJSON, analogously. -/
def getJSONSend {α : Type} (parse : JSBody → Except String α)
    (p : RequestParameters) (x : Xhr) : Option (Outcome α) :=
  match x.kind with
  | XhrKind.mock url response =>
    some (getJSONOnload parse p.url (mockSend url response))
  | XhrKind.real => none

/-- The xhr built by getJSON before send: makeRequest, then the
implicit Accept header. -/
def getJSONRequest (parseURL : String → URL) (reg : MockRegistry)
    (p : RequestParameters) : Xhr :=
  setRequestHeader (makeRequest parseURL reg p) "Accept" "application/json"

/-- The document location fields that sameOrigin compares. -/
structure DocLocation where
  protocol : String
  host : String
deriving DecidableEq, Repr

/-- A url as seen through the anchor element sameOrigin creates: the
browser resolves the string and exposes protocol and host; `src` is
the original string assigned to the source element. -/
structure AnchorURL where
  protocol : String
  host : String
  src : String
deriving DecidableEq, Repr

/-- sameOrigin: protocol and host of the resolved url both match the
document location. -/
def sameOrigin (doc : DocLocation) (u : AnchorURL) : Bool :=
  u.protocol == doc.protocol && u.host == doc.host

/-- The video element state getVideo builds: the crossOrigin
attribute (unset initially) and the src of each appended source
child, in order. -/
structure VideoElement where
  crossOrigin : Option String
  sources : List String
deriving DecidableEq, Repr

/-- One iteration of the getVideo loop: set crossOrigin when the url
is not same-origin, then append a source child carrying the url. -/
def getVideoStep (doc : DocLocation) (v : VideoElement) (u : AnchorURL) :
    VideoElement :=
  let v1 := if sameOrigin doc u then v
            else { v with crossOrigin := some "Anonymous" }
  { v1 with sources := v1.sources ++ [u.src] }

/-- getVideo: fold the loop over the urls starting from a fresh video
element. -/
def getVideo (doc : DocLocation) (urls : List AnchorURL) : VideoElement :=
  urls.foldl (getVideoStep doc) { crossOrigin := none, sources := [] }

/-- The image element state getImage builds. -/
structure ImageElement where
  src : String
  cacheControl : Option String
  expires : Option String
deriving DecidableEq, Repr

/-- The fixed fallback data url assigned when the fetched buffer has
no bytes. -/
def transparentPngUrl : String :=
  "data:image/png;base64,iVBORw0KGgoAAAANSUhEUgAAAAEAAAABCAYAAAAfFcSJAAAAC0lEQVQYV2NgAAIAAAUAAarVyFEAAAAASUVORK5CYII="

/-- Truthiness of `imgData.data.byteLength` in the src assignment: a
buffer with at least one byte is truthy; an empty buffer gives 0 and
a string gives undefined, both falsy. -/
def byteLengthTruthy : JSBody → Bool
  | JSBody.str _ => false
  | JSBody.buf bs => bs.length != 0

/-- The argument getArrayBuffer passes to its callback. -/
inductive CallbackArg (α : Type) where
  | err (e : JSErr)
  | ok (v : α)
deriving DecidableEq, Repr

/-- The continuation getImage installs on its getArrayBuffer call: an
error is forwarded unchanged; on success the image element gets the
cacheControl and expires metadata and its src is an object url for
the blob when the buffer has bytes, the transparent fallback
otherwise; the callback fires with the image once it loads.
Object-url creation is the host service `objectURL`. -/
def getImageHandler (objectURL : ABSuccess → String) :
    CallbackArg ABSuccess → Outcome ImageElement
  | CallbackArg.err e => Outcome.callbackErr e
  | CallbackArg.ok d =>
    Outcome.callbackOk
      { src := if byteLengthTruthy d.data then objectURL d else transparentPngUrl,
        cacheControl := d.cacheControl, expires := d.expires }

/-! Helper lemmas about the request-construction pipeline. -/

theorem setRequestHeader_kind (x : Xhr) (k v : String) :
    (setRequestHeader x k v).kind = x.kind := by
  cases x with
  | mk kind r u h w => cases kind <;> rfl

theorem setWithCredentials_kind (x : Xhr) (b : Bool) :
    (setWithCredentials x b).kind = x.kind := by
  cases x
  rfl

theorem openReq_kind (x : Xhr) (m u : String) :
    (openReq x m u).kind = x.kind := by
  cases x with
  | mk kind r u0 h w => cases kind <;> rfl

theorem foldl_setRequestHeader_kind (l : List (String × String)) (x : Xhr) :
    (l.foldl (fun a kv => setRequestHeader a kv.1 kv.2) x).kind = x.kind := by
  induction l generalizing x with
  | nil => rfl
  | cons kv rest ih => rw [List.foldl_cons, ih, setRequestHeader_kind]

theorem foldl_setRequestHeader_real (l : List (String × String)) (m u : String)
    (hs : List (String × String)) (w : Bool) :
    l.foldl (fun a kv => setRequestHeader a kv.1 kv.2)
      { kind := XhrKind.real, reqMethod := m, url := u, headers := hs,
        withCredentials := w } =
      { kind := XhrKind.real, reqMethod := m, url := u, headers := hs ++ l,
        withCredentials := w } := by
  induction l generalizing hs with
  | nil => simp
  | cons kv rest ih =>
    rw [List.foldl_cons]
    rw [show setRequestHeader
        { kind := XhrKind.real, reqMethod := m, url := u, headers := hs,
          withCredentials := w } kv.1 kv.2 =
        { kind := XhrKind.real, reqMethod := m, url := u,
          headers := hs ++ [(kv.1, kv.2)], withCredentials := w } from rfl]
    rw [ih]
    simp

theorem makeRequest_kind (parseURL : String → URL) (reg : MockRegistry)
    (p : RequestParameters) :
    (makeRequest parseURL reg p).kind =
      match mockLookup reg (parseURL p.url) with
      | some body => XhrKind.mock p.url body
      | none => XhrKind.real := by
  cases hm : mockLookup reg (parseURL p.url) <;>
    simp [makeRequest, hm, setWithCredentials_kind, foldl_setRequestHeader_kind,
      openReq_kind]

theorem makeRequest_real_eq (parseURL : String → URL) (reg : MockRegistry)
    (p : RequestParameters) (hm : mockLookup reg (parseURL p.url) = none) :
    makeRequest parseURL reg p =
      { kind := XhrKind.real, reqMethod := "GET", url := p.url,
        headers := p.headers.getD [],
        withCredentials := p.credentials == some "include" } := by
  simp only [makeRequest, hm]
  rw [show openReq
      { kind := XhrKind.real, reqMethod := "", url := "", headers := [],
        withCredentials := false } "GET" p.url =
      { kind := XhrKind.real, reqMethod := "GET", url := p.url, headers := [],
        withCredentials := false } from rfl]
  rw [foldl_setRequestHeader_real]
  rfl

/-! Helper lemmas about the getVideo loop. -/

theorem getVideoStep_sources (doc : DocLocation) (v : VideoElement) (u : AnchorURL) :
    (getVideoStep doc v u).sources = v.sources ++ [u.src] := by
  simp only [getVideoStep]
  split <;> rfl

theorem getVideoStep_cross (doc : DocLocation) (v : VideoElement) (u : AnchorURL) :
    (getVideoStep doc v u).crossOrigin =
      if sameOrigin doc u then v.crossOrigin else some "Anonymous" := by
  simp only [getVideoStep]
  split <;> rfl

theorem foldl_getVideoStep_sources (doc : DocLocation) (urls : List AnchorURL)
    (v : VideoElement) :
    (urls.foldl (getVideoStep doc) v).sources = v.sources ++ urls.map AnchorURL.src := by
  induction urls generalizing v with
  | nil => simp
  | cons u rest ih =>
    rw [List.foldl_cons, ih, getVideoStep_sources]
    simp

theorem foldl_getVideoStep_cross (doc : DocLocation) (urls : List AnchorURL)
    (v : VideoElement) :
    (urls.foldl (getVideoStep doc) v).crossOrigin =
      if urls.any (fun u => !sameOrigin doc u) then some "Anonymous"
      else v.crossOrigin := by
  induction urls generalizing v with
  | nil => simp
  | cons u rest ih =>
    rw [List.foldl_cons, ih]
    cases hs : sameOrigin doc u <;>
      simp [getVideoStep_cross, hs, List.any_cons]

/-! Claim theorems. -/

/-- C9: setMockRequest replaces the process-wide mock table wholesale:
after the call the table equals the argument exactly, lookups consult
only the new table, and subsequent makeRequest calls behave as with
the new table. -/
theorem c9_setMockRequest_replaces_wholesale (oldReg newReg : MockRegistry)
    (parseURL : String → URL) (p : RequestParameters) (h : String) :
    setMockRequest newReg oldReg = newReg ∧
    lookupAssoc (setMockRequest newReg oldReg) h = lookupAssoc newReg h ∧
    makeRequest parseURL (setMockRequest newReg oldReg) p =
      makeRequest parseURL newReg p :=
  ⟨rfl, rfl, rfl⟩

/-- C10: the mock lookup keys on hostname and pathname only: two urls
sharing those components resolve to the same mock entry (or both fall
through), whatever their protocol, port, query or fragment. -/
theorem c10_mock_lookup_keys_on_hostname_pathname (reg : MockRegistry)
    (u1 u2 : URL) (hh : u1.hostname = u2.hostname)
    (hp : u1.pathname = u2.pathname) :
    mockLookup reg u1 = mockLookup reg u2 := by
  unfold mockLookup
  rw [hh, hp]

def regW10 : MockRegistry := [("example.com", [("/a", JSBody.str "x")])]

def urlW10a : URL :=
  { protocol := "http:", hostname := "example.com", port := "",
    pathname := "/a", search := "", hash := "" }

def urlW10b : URL :=
  { protocol := "https:", hostname := "example.com", port := "8080",
    pathname := "/a", search := "?q=1", hash := "#frag" }

/-- Witness for C10 at two concrete urls differing in protocol, port,
query and fragment. -/
theorem c10_witness :
    mockLookup regW10 urlW10a = mockLookup regW10 urlW10b :=
  c10_mock_lookup_keys_on_hostname_pathname regW10 urlW10a urlW10b rfl rfl

/-- C6: getVideo attaches one source per url in input order; the
crossOrigin attribute ends up Anonymous exactly when some url is
cross-origin, and stays unset when every url is same-origin. -/
theorem c6_getVideo_sources_and_crossOrigin (doc : DocLocation)
    (urls : List AnchorURL) :
    (getVideo doc urls).sources = urls.map AnchorURL.src ∧
    ((getVideo doc urls).crossOrigin = some "Anonymous" ↔
      ∃ u ∈ urls, sameOrigin doc u = false) ∧
    ((∀ u ∈ urls, sameOrigin doc u = true) →
      (getVideo doc urls).crossOrigin = none) := by
  have hco : (getVideo doc urls).crossOrigin =
      if urls.any (fun u => !sameOrigin doc u) then some "Anonymous" else none := by
    unfold getVideo
    rw [foldl_getVideoStep_cross]
  refine ⟨?_, ?_, ?_⟩
  · unfold getVideo
    rw [foldl_getVideoStep_sources]
    rfl
  · rw [hco]
    constructor
    · intro heq
      by_contra hn
      push_neg at hn
      have hf : urls.any (fun u => !sameOrigin doc u) = false := by
        rw [Bool.eq_false_iff]
        intro hc
        rcases List.any_eq_true.mp hc with ⟨u, hu, hso⟩
        rw [Bool.not_eq_true'] at hso
        exact absurd hso (hn u hu)
      rw [hf] at heq
      exact Option.noConfusion heq
    · intro hex
      rcases hex with ⟨u, hu, hso⟩
      have ht : urls.any (fun u => !sameOrigin doc u) = true :=
        List.any_eq_true.mpr ⟨u, hu, by rw [hso]; rfl⟩
      rw [ht]
      rfl
  · intro hall
    rw [hco]
    have hf : urls.any (fun u => !sameOrigin doc u) = false := by
      rw [Bool.eq_false_iff]
      intro hcontra
      rcases List.any_eq_true.mp hcontra with ⟨u, hu, hso⟩
      rw [hall u hu] at hso
      exact Bool.noConfusion hso
    rw [hf]
    rfl

def docW6 : DocLocation := { protocol := "http:", host := "example.com" }

def urlW6a : AnchorURL :=
  { protocol := "http:", host := "other-origin", src := "http://other-origin/a.mp4" }

def urlW6b : AnchorURL :=
  { protocol := "http:", host := "example.com", src := "/local/b.mp4" }

/-- Witness for C6: one cross-origin and one same-origin url give two
ordered sources and the Anonymous crossOrigin mode. -/
theorem c6_witness :
    (getVideo docW6 [urlW6a, urlW6b]).sources =
      ["http://other-origin/a.mp4", "/local/b.mp4"] ∧
    (getVideo docW6 [urlW6a, urlW6b]).crossOrigin = some "Anonymous" := by
  have h := c6_getVideo_sources_and_crossOrigin docW6 [urlW6a, urlW6b]
  refine ⟨h.1, h.2.1.mpr ⟨urlW6a, List.mem_cons_self _ _, by decide⟩⟩

/-- C7: the getImage continuation forwards a buffer-fetch error
unchanged, answers a zero-length success with the transparent-pixel
fallback and never an error, and copies the cacheControl and expires
metadata onto the image on every success. -/
theorem c7_getImage_fallback_and_metadata (objectURL : ABSuccess → String) :
    (∀ e, getImageHandler objectURL (CallbackArg.err e) = Outcome.callbackErr e) ∧
    (∀ d : ABSuccess, d.data = JSBody.buf [] →
      getImageHandler objectURL (CallbackArg.ok d) =
        Outcome.callbackOk
          { src := transparentPngUrl, cacheControl := d.cacheControl,
            expires := d.expires }) ∧
    (∀ d : ABSuccess, ∃ img : ImageElement,
      getImageHandler objectURL (CallbackArg.ok d) = Outcome.callbackOk img ∧
      img.cacheControl = d.cacheControl ∧ img.expires = d.expires) := by
  refine ⟨fun e => rfl, ?_, ?_⟩
  · intro d hd
    simp [getImageHandler, hd, byteLengthTruthy]
  · intro d
    exact ⟨_, rfl, rfl, rfl⟩

/-- Witness for C7 at a concrete zero-length success payload. -/
theorem c7_witness :
    getImageHandler (fun _ => "blob:local")
        (CallbackArg.ok
          { data := JSBody.buf [], cacheControl := some "max-age=60",
            expires := none }) =
      Outcome.callbackOk
        { src := transparentPngUrl, cacheControl := some "max-age=60",
          expires := none } :=
  (c7_getImage_fallback_and_metadata (fun _ => "blob:local")).2.1 _ rfl

theorem mockLookup_truthy (reg : MockRegistry) (u : URL) (body : JSBody)
    (hm : mockLookup reg u = some body) : truthy body = true := by
  unfold mockLookup at hm
  split at hm
  · exact Option.noConfusion hm
  · split at hm
    · exact Option.noConfusion hm
    · split at hm
      · cases hm
        assumption
      · exact Option.noConfusion hm

def regC1 : MockRegistry := [("example.com", [("/style.json", JSBody.str "")])]

def urlC1 : URL :=
  { protocol := "https:", hostname := "example.com", port := "",
    pathname := "/style.json", search := "", hash := "" }

def paramsC1 : RequestParameters :=
  { url := "https://example.com/style.json", headers := none, credentials := none }

/-- C1 counterexample: a registry entry exists for the host and path
but its body is the empty string, yet the request is served by a real
XMLHttpRequest and neither fetch operation delivers any mock outcome,
so no mock 404 AJAXError reaches the callback. -/
theorem c1_counterexample :
    lookupAssoc regC1 urlC1.hostname = some [("/style.json", JSBody.str "")] ∧
    lookupAssoc [("/style.json", JSBody.str "")] urlC1.pathname =
      some (JSBody.str "") ∧
    truthy (JSBody.str "") = false ∧
    mockLookup regC1 urlC1 = none ∧
    (makeRequest (fun _ => urlC1) regC1 paramsC1).kind = XhrKind.real ∧
    getArrayBufferSend paramsC1 (makeRequest (fun _ => urlC1) regC1 paramsC1) =
      none :=
  ⟨rfl, rfl, rfl, rfl, rfl, rfl⟩

/-- C1 (amended): a registry entry whose body is absent or empty
(falsy) is never served by the mock: makeRequest falls through to a
real XMLHttpRequest. Consequently every entry the mock does serve has
a truthy body and mock send always synthesizes status 200; the 404
branch of MockXMLHttpRequest.send is unreachable through makeRequest. -/
theorem c1_falsy_mock_entries_fall_through (parseURL : String → URL)
    (reg : MockRegistry) (p : RequestParameters) :
    (∀ (hostMock : HostMock) (body : JSBody),
      lookupAssoc reg (parseURL p.url).hostname = some hostMock →
      lookupAssoc hostMock (parseURL p.url).pathname = some body →
      truthy body = false →
      (makeRequest parseURL reg p).kind = XhrKind.real) ∧
    (∀ body : JSBody, mockLookup reg (parseURL p.url) = some body →
      truthy body = true ∧ (mockSend p.url body).status = 200) := by
  constructor
  · intro hostMock body hh hb ht
    have hm : mockLookup reg (parseURL p.url) = none := by
      simp [mockLookup, hh, hb, ht]
    rw [makeRequest_kind, hm]
  · intro body hm
    have htr := mockLookup_truthy reg (parseURL p.url) body hm
    exact ⟨htr, by simp [mockSend, htr]⟩

/-- Witness for the amended C1 at the concrete empty-body entry. -/
theorem c1_amended_witness :
    (makeRequest (fun _ => urlC1) regC1 paramsC1).kind = XhrKind.real :=
  (c1_falsy_mock_entries_fall_through (fun _ => urlC1) regC1 paramsC1).1
    [("/style.json", JSBody.str "")] (JSBody.str "") rfl rfl rfl

def trC2 : TransportResult :=
  { status := 404, statusText := some "Not Found", response := none,
    hasGetResponseHeader := true, cacheControlHeader := none,
    expiresHeader := none }

/-- C2 counterexample: a completed exchange whose body is null makes
the getArrayBuffer onload handler read byteLength of null and throw a
TypeError instead of invoking the callback. -/
theorem c2_counterexample :
    getArrayBufferOnload "https://example.com/buf" trC2 =
      Outcome.thrown "TypeError: null response has no byteLength" :=
  rfl

/-- C2 (amended): restricted to completed exchanges whose body is
non-null and whose transport object provides getResponseHeader,
getArrayBuffer invokes its callback exactly once, with a success or
one classified error, and no exception escapes the handler. -/
theorem c2_callback_once_nonnull_body (url : String) (t : TransportResult)
    (b : JSBody) (hb : t.response = some b)
    (hh : t.hasGetResponseHeader = true) :
    ((∃ e, getArrayBufferOnload url t = Outcome.callbackErr e) ∨
      (∃ v, getArrayBufferOnload url t = Outcome.callbackOk v)) ∧
    (∀ m, getArrayBufferOnload url t ≠ Outcome.thrown m) := by
  simp only [getArrayBufferOnload, hb, hh]
  split_ifs
  all_goals
    first
    | exact ⟨Or.inl ⟨_, rfl⟩, fun m hc => Outcome.noConfusion hc⟩
    | exact ⟨Or.inr ⟨_, rfl⟩, fun m hc => Outcome.noConfusion hc⟩

def trC2w : TransportResult :=
  { status := 200, statusText := none, response := some (JSBody.buf [1, 2]),
    hasGetResponseHeader := true, cacheControlHeader := some "max-age=30",
    expiresHeader := none }

/-- Witness for the amended C2 at a concrete completed exchange. -/
theorem c2_amended_witness :
    ((∃ e, getArrayBufferOnload "u" trC2w = Outcome.callbackErr e) ∨
      (∃ v, getArrayBufferOnload "u" trC2w = Outcome.callbackOk v)) ∧
    (∀ m, getArrayBufferOnload "u" trC2w ≠ Outcome.thrown m) :=
  c2_callback_once_nonnull_body "u" trC2w (JSBody.buf [1, 2]) rfl rfl

def regC3 : MockRegistry := [("example.com", [("/tile.pbf", JSBody.buf [1, 2, 3])])]

def urlC3 : URL :=
  { protocol := "https:", hostname := "example.com", port := "",
    pathname := "/tile.pbf", search := "", hash := "" }

def paramsC3 : RequestParameters :=
  { url := "https://example.com/tile.pbf", headers := none, credentials := none }

/-- C3: at a mock entry with a non-empty body, the getArrayBuffer
success path calls xhr.getResponseHeader, a method the
MockXMLHttpRequest class does not define, so the handler throws a
TypeError instead of delivering the raw bytes to the callback. -/
theorem c3_mock_arraybuffer_success_throws :
    mockLookup regC3 urlC3 = some (JSBody.buf [1, 2, 3]) ∧
    getArrayBufferSend paramsC3 (makeRequest (fun _ => urlC3) regC3 paramsC3) =
      some (Outcome.thrown "TypeError: xhr.getResponseHeader is not a function") :=
  ⟨rfl, rfl⟩

def trC4c : TransportResult :=
  mockSend "https://example.com/tile.pbf" (JSBody.buf [9])

/-- C4 counterexample: a completed mocked exchange has status 200 and
a non-empty body, yet no success result carrying the response headers
reaches the callback: the handler throws a TypeError, because the
mock transport object provides no getResponseHeader. -/
theorem c4_counterexample :
    trC4c.status = 200 ∧ trC4c.response = some (JSBody.buf [9]) ∧
    getArrayBufferOnload "https://example.com/tile.pbf" trC4c =
      Outcome.thrown "TypeError: xhr.getResponseHeader is not a function" :=
  ⟨rfl, rfl, rfl⟩

/-- C4 (amended): a completed getArrayBuffer exchange with status 200
and a zero-byte body yields exactly one empty-body error and never a
success, on every transport; a 2xx exchange with a non-empty buffer
body yields the success payload carrying the bytes and the
Cache-Control and Expires header values on a transport providing
getResponseHeader (a real XMLHttpRequest), while a completed mocked
exchange throws instead of delivering that success. -/
theorem c4_empty_body_error_and_success_headers (url : String)
    (t : TransportResult) :
    (∀ bs : List Nat, t.response = some (JSBody.buf bs) → bs = [] →
      t.status = 200 →
      getArrayBufferOnload url t =
        Outcome.callbackErr
          (JSErr.plainError (some "http status 200 returned without content."))) ∧
    (∀ bs : List Nat, t.response = some (JSBody.buf bs) → bs ≠ [] →
      200 ≤ t.status → t.status < 300 → t.hasGetResponseHeader = true →
      getArrayBufferOnload url t =
        Outcome.callbackOk
          { data := JSBody.buf bs, cacheControl := t.cacheControlHeader,
            expires := t.expiresHeader }) := by
  constructor
  · intro bs hb hbs hst
    subst hbs
    simp [getArrayBufferOnload, hb, byteLength, hst]
  · intro bs hb hbs h1 h2 hh
    simp [getArrayBufferOnload, hb, byteLength, List.length_eq_zero, hbs,
      h1, h2, hh, truthy]

def trC4a : TransportResult :=
  { status := 200, statusText := none, response := some (JSBody.buf []),
    hasGetResponseHeader := false, cacheControlHeader := none,
    expiresHeader := none }

def trC4b : TransportResult :=
  { status := 200, statusText := some "OK", response := some (JSBody.buf [7]),
    hasGetResponseHeader := true, cacheControlHeader := some "max-age=3600",
    expiresHeader := none }

/-- Witness for C4 at a concrete empty 200 exchange and a concrete
non-empty 200 exchange. -/
theorem c4_witness :
    getArrayBufferOnload "u" trC4a =
      Outcome.callbackErr
        (JSErr.plainError (some "http status 200 returned without content.")) ∧
    getArrayBufferOnload "u" trC4b =
      Outcome.callbackOk
        { data := JSBody.buf [7], cacheControl := some "max-age=3600",
          expires := none } :=
  ⟨(c4_empty_body_error_and_success_headers "u" trC4a).1 [] rfl rfl rfl,
    (c4_empty_body_error_and_success_headers "u" trC4b).2 [7] rfl
      (by decide) (by decide) (by decide) rfl⟩

theorem getJSONOnload_ne_thrown {α : Type} (parse : JSBody → Except String α)
    (url : String) (t : TransportResult) (m : String) :
    getJSONOnload parse url t ≠ Outcome.thrown m := by
  intro hcontra
  unfold getJSONOnload at hcontra
  repeat' split at hcontra
  all_goals exact Outcome.noConfusion hcontra

/-- C5: on a 2xx status with a truthy body, getJSON delivers exactly
one parse-error callback when JSON.parse fails, delivers the parsed
value with no error when it succeeds, and never lets an exception
escape the handler. -/
theorem c5_getJSON_decode (α : Type) (parse : JSBody → Except String α)
    (url : String) (t : TransportResult) (b : JSBody)
    (hb : t.response = some b) (htr : truthy b = true)
    (h1 : 200 ≤ t.status) (h2 : t.status < 300) :
    (∀ e, parse b = Except.error e →
      getJSONOnload parse url t = Outcome.callbackErr (JSErr.parseError e)) ∧
    (∀ v, parse b = Except.ok v →
      getJSONOnload parse url t = Outcome.callbackOk v) ∧
    (∀ m, getJSONOnload parse url t ≠ Outcome.thrown m) := by
  refine ⟨?_, ?_, fun m => getJSONOnload_ne_thrown parse url t m⟩
  · intro e he
    simp [getJSONOnload, hb, htr, h1, h2, he]
  · intro v hv
    simp [getJSONOnload, hb, htr, h1, h2, hv]

def parseW5 : JSBody → Except String Nat
  | JSBody.str "1" => Except.ok 1
  | _ => Except.error "Unexpected token"

def trC5 : TransportResult :=
  { status := 200, statusText := some "OK",
    response := some (JSBody.str "not json"),
    hasGetResponseHeader := true, cacheControlHeader := none,
    expiresHeader := none }

/-- Witness for C5 at a concrete malformed body behind a 200 status. -/
theorem c5_witness :
    getJSONOnload parseW5 "u" trC5 =
      Outcome.callbackErr (JSErr.parseError "Unexpected token") :=
  (c5_getJSON_decode Nat parseW5 "u" trC5 (JSBody.str "not json") rfl
    (by decide) (by decide) (by decide)).1 "Unexpected token" rfl

/-- C8: when the mock misses, makeRequest constructs one GET request
at the given url with exactly the supplied headers (none when the
headers field is absent) and withCredentials true exactly when
credentials is "include"; getJSON additionally appends the implicit
Accept header. -/
theorem c8_request_construction (parseURL : String → URL) (reg : MockRegistry)
    (p : RequestParameters) (hm : mockLookup reg (parseURL p.url) = none) :
    (makeRequest parseURL reg p).kind = XhrKind.real ∧
    (makeRequest parseURL reg p).reqMethod = "GET" ∧
    (makeRequest parseURL reg p).url = p.url ∧
    (makeRequest parseURL reg p).headers = p.headers.getD [] ∧
    ((makeRequest parseURL reg p).withCredentials = true ↔
      p.credentials = some "include") ∧
    (getJSONRequest parseURL reg p).headers =
      p.headers.getD [] ++ [("Accept", "application/json")] := by
  have h := makeRequest_real_eq parseURL reg p hm
  refine ⟨by rw [h], by rw [h], by rw [h], by rw [h], ?_, ?_⟩
  · rw [h]
    simp [beq_iff_eq]
  · unfold getJSONRequest
    rw [h]
    rfl

def urlC8 : URL :=
  { protocol := "https:", hostname := "api.example.com", port := "",
    pathname := "/v1/style", search := "", hash := "" }

def paramsC8 : RequestParameters :=
  { url := "https://api.example.com/v1/style",
    headers := some [("X-Custom", "1"), ("Accept-Language", "en")],
    credentials := some "include" }

/-- Witness for C8 at concrete parameters carrying two headers and
include credentials, against the empty registry. -/
theorem c8_witness :
    (makeRequest (fun _ => urlC8) [] paramsC8).headers =
      [("X-Custom", "1"), ("Accept-Language", "en")] ∧
    (makeRequest (fun _ => urlC8) [] paramsC8).withCredentials = true ∧
    (getJSONRequest (fun _ => urlC8) [] paramsC8).headers =
      [("X-Custom", "1"), ("Accept-Language", "en"),
        ("Accept", "application/json")] :=
  ⟨((c8_request_construction (fun _ => urlC8) [] paramsC8 rfl).2.2.2.1).trans rfl,
    ((c8_request_construction (fun _ => urlC8) [] paramsC8 rfl).2.2.2.2.1).mpr rfl,
    ((c8_request_construction (fun _ => urlC8) [] paramsC8 rfl).2.2.2.2.2).trans rfl⟩

end Ajax
